import Mathlib

/-!
Verification development for the `CrewAIBuilder` orchestrator
(`agent-backend/src/build/build_crew.py`).

The module assembles a multi-agent "crew" from configuration records keyed by
sets of identifiers.  We embed the dictionaries as association lists
`List (Finset Nat × α)` (Python dicts iterate in insertion order, which the
list order captures), and each build step as a pure function on an explicit
builder state.  External constructors (LLM clients, vector stores, the agent
framework) are opaque: we record exactly the arguments the source passes to
them.  Socket and exception behaviour is modelled with explicit result values
(`Except` for fallible operations, traces of socket operations).
-/

set_option autoImplicit false

namespace BuildCrew

/-- Key-sets: Python `Set[PyObjectId]`, identifiers modelled as naturals. -/
abbrev Key := Finset Nat

/-- A Python `Dict[Set[PyObjectId], α]` in iteration (insertion) order. -/
abbrev EDict (α : Type) := List (Key × α)

/--
`match_key` (build_crew.py lines 62-69): scans the dictionary in iteration
order; with `exact` set an entry is returned on key equality, otherwise (and
also when `exact` is set, via the `elif`) on the query key being a subset of
the entry key; `none` when the scan falls through.
-/
def match_key {α : Type} (elements_dict : EDict α) (key : Key) (exact : Bool) : Option α :=
  match elements_dict with
  | [] => none
  | (k, v) :: rest =>
    if exact = true ∧ key = k then some v
    else if key ⊆ k then some v
    else match_key rest key exact

/--
`search_subordinate_keys` (build_crew.py lines 71-77): collects, in iteration
order, every entry whose key strictly contains the query key.
-/
def search_subordinate_keys {α : Type} (elements_dict : EDict α) (key : Key) : EDict α :=
  elements_dict.filter (fun kv => decide (key ⊆ kv.1 ∧ key ≠ kv.1))

/-- The first entry whose key-set contains the query, as the spec phrases it
(first match of an iteration-order scan). -/
def first_superset_entry {α : Type} (elements_dict : EDict α) (key : Key) : Option (Key × α) :=
  elements_dict.find? (fun kv => decide (key ⊆ kv.1))

/--
The platform tag of a credential record (`models.mongo.Platforms`).  The
source module is outside `src/`; build_crew.py references exactly the three
members `ChatOpenAI`, `AzureChatOpenAI` and `FastEmbed` in its `match`
statement, and `other` stands for any further member of the enum, which the
`match` statement falls through (no `case _` arm).
-/
inductive Platform where
  | chatOpenAI
  | azureChatOpenAI
  | fastEmbed
  | other (tag : Nat)
deriving DecidableEq

/-- `models.mongo.Model`: the `model_name` field is read directly by
`build_tools_and_their_datasources`; the remaining configuration fields are
only forwarded opaquely through `model_dump`, abstracted as `dump`. -/
structure ModelM where
  model_name : String
  dump : String
deriving DecidableEq

/-- `models.mongo.Credentials`: `type` and `credentials.api_key` are the only
fields build_crew.py reads. -/
structure CredentialsM where
  type : Platform
  api_key : String
deriving DecidableEq

/-- `models.mongo.Agent`: forwarded opaquely through `model_dump`. -/
structure AgentM where
  dump : String
deriving DecidableEq

/-- `models.mongo.Task`: `agentId` is read by `build_tasks`; the rest is
forwarded opaquely through `model_dump`. -/
structure TaskM where
  agentId : Nat
  dump : String
deriving DecidableEq

/-- `models.mongo.Tool`: `name` and `description` are read directly. -/
structure ToolM where
  name : String
  description : String
deriving DecidableEq

/-- `models.mongo.Datasource`: only `id` is read (as the collection name). -/
structure DatasourceM where
  id : Nat
deriving DecidableEq

/-- The crew configuration record, forwarded opaquely through `model_dump`. -/
structure CrewM where
  dump : String
deriving DecidableEq

/-- Modelled from the spec: `utils.model_helper.keyset` is imported by
build_crew.py but its module is not under `src/`; it forms the key-set of the
given identifier, used as the exact-match query for a task's agent. -/
def keyset (ident : Nat) : Key := {ident}

/-- An LLM/embedding client as constructed by `build_models_with_credentials`:
the constructor chosen by the credential's platform, the `api_key` passed to
it, and the model record whose dumped fields are splatted into the call. -/
inductive BuiltModel where
  | chatOpenAI (api_key : String) (conf : ModelM)
  | azureChatOpenAI (api_key : String) (conf : ModelM)
  | fastEmbed (conf : ModelM)
deriving DecidableEq

/-- A RAG tool as produced by `RagToolFactory.generate_langchain_tool`: we
record the arguments build_crew.py passes to the factory (collection name from
the datasource id, the embedding client, the vector name read off the matched
model record, and the tool's name and description).  `vector_name` is an
`Option` because it is read from a second `match_key` lookup. -/
structure BuiltTool where
  collection : String
  embeddings : BuiltModel
  vector_name : Option String
  name : String
  description : String
deriving DecidableEq

/-- A crewai `Agent` as constructed by `build_agents`: dumped agent fields,
the `llm` keyword (an exact `match_key` lookup, possibly `None`) and the
`tools` keyword (the values of a `search_subordinate_keys` lookup). -/
structure BuiltAgent where
  conf : AgentM
  llm : Option BuiltModel
  tools : List BuiltTool
deriving DecidableEq

/-- A crewai `Task` as constructed by `build_tasks`. -/
structure BuiltTask where
  conf : TaskM
  agent : Option BuiltAgent
  tools : List BuiltTool
deriving DecidableEq

/-- The step callback reference installed on the crew
(`step_callback=self.send_it`). -/
inductive CallbackRef where
  | sendIt
deriving DecidableEq

/-- The crewai `Crew` object as constructed in step 5 of `build_crew`. -/
structure BuiltCrew where
  agents : List BuiltAgent
  tasks : List BuiltTask
  conf : CrewM
  step_callback : CallbackRef
deriving DecidableEq

/-- The mutable attributes of a `CrewAIBuilder` instance relevant to the
build steps (`__init__`, build_crew.py lines 24-48). -/
structure BuilderState where
  session_id : String
  crew_model : CrewM
  agents_models : EDict AgentM
  tasks_models : EDict TaskM
  tools_models : EDict ToolM
  datasources_models : EDict DatasourceM
  models_models : EDict ModelM
  credentials_models : EDict CredentialsM
  crew_models : EDict BuiltModel
  crew_tools : EDict BuiltTool
  crew_agents : EDict BuiltAgent
  crew_tasks : EDict BuiltTask
  crew : Option BuiltCrew
deriving DecidableEq

/-- One iteration of the `build_models_with_credentials` loop body
(build_crew.py lines 79-107): look up a credential by subset match; if one is
found, dispatch on its platform type — the three named platforms produce a
client entry, any other platform falls through the `match` with no entry. -/
def modelEntry (credentials_models : EDict CredentialsM) (kv : Key × ModelM) :
    Option (Key × BuiltModel) :=
  match match_key credentials_models kv.1 false with
  | none => none
  | some credential =>
    match credential.type with
    | .chatOpenAI => some (kv.1, .chatOpenAI credential.api_key kv.2)
    | .azureChatOpenAI => some (kv.1, .azureChatOpenAI credential.api_key kv.2)
    | .fastEmbed => some (kv.1, .fastEmbed kv.2)
    | .other _ => none

/-- `build_models_with_credentials` (lines 79-107): the loop appends one
`crew_models` entry per model key for which `modelEntry` fires. -/
def build_models_with_credentials (st : BuilderState) : BuilderState :=
  { st with crew_models :=
      st.crew_models ++ st.models_models.filterMap (modelEntry st.credentials_models) }

/-- One iteration of the `build_tools_and_their_datasources` loop body
(build_crew.py lines 109-128): a tool gets an entry when a datasource and an
embedding client both subset-match its key; the vector name is read off the
model record matched in `models_models` (always present whenever the
`crew_models` lookup succeeds, since `crew_models` keys come from
`models_models`; the `Option.map` renders the attribute access). -/
def toolEntry (datasources_models : EDict DatasourceM) (crew_models : EDict BuiltModel)
    (models_models : EDict ModelM) (kv : Key × ToolM) : Option (Key × BuiltTool) :=
  match match_key datasources_models kv.1 false with
  | none => none
  | some datasource =>
    match match_key crew_models kv.1 false with
    | none => none
    | some embedding_model =>
      some (kv.1,
        { collection := toString datasource.id
          embeddings := embedding_model
          vector_name := (match_key models_models kv.1 false).map ModelM.model_name
          name := kv.2.name
          description := kv.2.description })

/-- `build_tools_and_their_datasources` (lines 109-128). -/
def build_tools_and_their_datasources (st : BuilderState) : BuilderState :=
  let entries := st.tools_models.filterMap
    (toolEntry st.datasources_models st.crew_models st.models_models)
  { st with crew_tools := st.crew_tools ++ entries }

/-- One iteration of the `build_agents` loop body (lines 130-140): the arguments
build_crew.py passes to the `Agent` constructor. -/
def agentEntry (crew_models : EDict BuiltModel) (crew_tools : EDict BuiltTool)
    (kv : Key × AgentM) : Key × BuiltAgent :=
  (kv.1,
    { conf := kv.2
      llm := match_key crew_models kv.1 true
      tools := (search_subordinate_keys crew_tools kv.1).map Prod.snd })

/-- `build_agents` (lines 130-140): every agent gets an entry; its `llm` is
the exact-flagged `match_key` lookup in `crew_models` and its tools are the
values of `search_subordinate_keys` on `crew_tools`. -/
def build_agents (st : BuilderState) : BuilderState :=
  let entries := st.agents_models.map (agentEntry st.crew_models st.crew_tools)
  { st with crew_agents := st.crew_agents ++ entries }

/-- One iteration of the `build_tasks` loop body (lines 142-149): the arguments
build_crew.py passes to the `Task` constructor. -/
def taskEntry (crew_agents : EDict BuiltAgent) (crew_tools : EDict BuiltTool)
    (kv : Key × TaskM) : Key × BuiltTask :=
  (kv.1,
    { conf := kv.2
      agent := match_key crew_agents (keyset kv.2.agentId) true
      tools := (search_subordinate_keys crew_tools kv.1).map Prod.snd })

/-- `build_tasks` (lines 142-149): every task gets an entry; its agent is the
exact-flagged `match_key` lookup of `keyset(task.agentId)` in `crew_agents`
and its tools are the values of `search_subordinate_keys` on `crew_tools`. -/
def build_tasks (st : BuilderState) : BuilderState :=
  let entries := st.tasks_models.map (taskEntry st.crew_agents st.crew_tools)
  { st with crew_tasks := st.crew_tasks ++ entries }

/-- The `Crew(...)` constructor call of step 5 (lines 165-171): built agents
and tasks (dict values), the dumped crew configuration, and the step callback
`self.send_it`. -/
def crewObjectOf (st : BuilderState) : BuiltCrew :=
  { agents := st.crew_agents.map Prod.snd
    tasks := st.crew_tasks.map Prod.snd
    conf := st.crew_model
    step_callback := .sendIt }

/-- Step 5 of `build_crew` (lines 165-171): store the constructed `Crew`. -/
def build_crew_object (st : BuilderState) : BuilderState :=
  { st with crew := some (crewObjectOf st) }

/-- The five build steps of `build_crew` (lines 151-171), as tags. -/
inductive BuildStepTag where
  | models
  | tools
  | agents
  | tasks
  | crewStep
deriving DecidableEq

/-- Dispatch a build-step tag to the corresponding step function. -/
def run_build_step : BuildStepTag → BuilderState → BuilderState
  | .models => build_models_with_credentials
  | .tools => build_tools_and_their_datasources
  | .agents => build_agents
  | .tasks => build_tasks
  | .crewStep => build_crew_object

/-- The sequence of statements in the body of `build_crew` (lines 151-171). -/
def build_crew_step_sequence : List BuildStepTag :=
  [.models, .tools, .agents, .tasks, .crewStep]

/-- `build_crew` (lines 151-171): run the five build steps in order. -/
def build_crew (st : BuilderState) : BuilderState :=
  build_crew_step_sequence.foldl (fun s t => run_build_step t s) st

/-- A sample model record, used to evaluate theorems on concrete inputs. -/
def sampleModel : ModelM := ⟨"text-embedding-3", "modelconf"⟩

/-- A sample credential record with a recognised platform type. -/
def sampleCredential : CredentialsM := ⟨.chatOpenAI, "sk-test"⟩

/-- A sample built tool keyed strictly above the sample agent key. -/
def sampleTool : BuiltTool := ⟨"5", .fastEmbed sampleModel, some "text-embedding-3", "rag", "doc search"⟩

/-- A concrete builder state exercising the build steps: one agent and one
task keyed `{1}`, one model keyed `{1}`, a credential keyed `{1, 2}` (a strict
superset, so subset matching fires), and one pre-built tool keyed `{1, 2}`. -/
def sampleState : BuilderState :=
  ⟨"sess", ⟨"crewconf"⟩, [({1}, ⟨"agentconf"⟩)], [({1}, ⟨7, "taskconf"⟩)], [], [],
    [({1}, sampleModel)], [({1, 2}, sampleCredential)], [], [({1, 2}, sampleTool)], [], [], none⟩

/-- An exception raised by a socket operation: `connError` is socketio's
`ConnectionError` (the only class the `except` clause of `init_socket`
catches); `otherErr` is any other exception. -/
inductive SocketError where
  | connError (msg : String)
  | otherErr (msg : String)
deriving DecidableEq

/-- An observable operation on the socket client: a `connect` call or an
`emit` of an event with a payload. -/
inductive SocketOp where
  | connect
  | emit (event : String) (payload : String)
deriving DecidableEq

/-- The observable outcome of `init_socket`: log records written, socket
operations performed, and either normal return or a propagated exception. -/
structure InitSocketOutcome where
  logs : List String
  socket_ops : List SocketOp
  result : Except SocketError Unit

/--
`init_socket` (build_crew.py lines 50-60), with the outcome of the external
`socket.connect` call supplied as `connect_result`.  On success the room
`_`-prefixed session id is joined; a `ConnError` is logged and re-raised by
the bare `raise`; any other exception propagates uncaught (and unlogged).
-/
def init_socket (connect_result : Except SocketError Unit) (session_id : String) :
    InitSocketOutcome :=
  match connect_result with
  | .ok _ => ⟨[], [.connect, .emit "join_room" ("_" ++ session_id)], .ok ()⟩
  | .error (.connError msg) =>
    ⟨["Connection error occurred: " ++ msg], [.connect], .error (.connError msg)⟩
  | .error (.otherErr msg) => ⟨[], [.connect], .error (.otherErr msg)⟩

/-- `__init__` (lines 24-48): store the inputs, initialise the four result
dictionaries empty and `crew` to `None`, and call `init_socket`. -/
def builder_init (session_id : String) (crew : CrewM) (agents : EDict AgentM)
    (tasks : EDict TaskM) (tools : EDict ToolM) (datasources : EDict DatasourceM)
    (mdls : EDict ModelM) (credentials : EDict CredentialsM)
    (connect_result : Except SocketError Unit) : BuilderState × InitSocketOutcome :=
  (⟨session_id, crew, agents, tasks, tools, datasources, mdls, credentials,
      [], [], [], [], none⟩,
    init_socket connect_result session_id)

/-- The typed message envelope `SocketMessage(room, authorName="system",
message=Message(text, tokens=1, first=True))` built by `send_it`
(lines 178-187).  `text` is an `Option` because `return_values.get`
returns `None` for a missing entry. -/
structure SocketMessage where
  room : String
  authorName : String
  text : Option String
  tokens : Nat
  first : Bool
deriving DecidableEq

/-- The `SocketMessage` as `send_it` assembles it for a given session and
output text. -/
def socket_message_of (session_id : String) (text : Option String) : SocketMessage :=
  ⟨session_id, "system", text, 1, true⟩

/-- `message.return_values.get` of the `output` entry: first binding in the
dictionary, `None` when absent. -/
def rv_output (return_values : List (String × String)) : Option String :=
  return_values.lookup "output"

mutual

/--
The shape of a step-callback message, as `send_it` discriminates it by
`type(message)`: an `AgentFinish` (with the `hasattr` result for
`return_values` and the dictionary itself), a list, a tuple, or any other
value (rendered by its printed form).
-/
inductive Msg where
  | agentFinish (has_return_values : Bool) (return_values : List (String × String))
  | listMsg (items : MsgList)
  | tupleMsg (items : MsgList)
  | otherMsg (rendering : String)

/-- A list of step-callback messages (the elements of a list or tuple
message). -/
inductive MsgList where
  | nil
  | cons (head : Msg) (tail : MsgList)

end

/-- The observable outcome of a `send_it` call: socket messages whose `send`
completed, exceptions logged by the `except` clause, and lines printed for
unprocessed messages. -/
structure SendItResult where
  emitted : List SocketMessage
  logged : List String
  printed : List String
deriving DecidableEq

/-- Concatenate the outcomes of consecutive callback invocations. -/
def SendItResult.append (r s : SendItResult) : SendItResult :=
  ⟨r.emitted ++ s.emitted, r.logged ++ s.logged, r.printed ++ s.printed⟩

/-- The outcome of the external `send(self.socket, ...)` call for a given
message: normal return or a raised exception. -/
abbrev SendOracle := SocketMessage → Except String Unit

mutual

/--
`send_it` (build_crew.py lines 173-194), with its `try`/`except` inlined:
an `AgentFinish` with `return_values` is sent over the socket (an exception
raised by `send` is caught and logged by the handler at lines 193-194, and the
message does not count as emitted); lists and tuples are processed
element-wise by recursive `send_it` calls (each with its own handler); any
other message is printed as unprocessed.
-/
def send_it (send_result : SendOracle) (session_id : String) : Msg → SendItResult
  | .agentFinish has_rv rv =>
    if has_rv then
      match send_result (socket_message_of session_id (rv_output rv)) with
      | .ok _ => ⟨[socket_message_of session_id (rv_output rv)], [], []⟩
      | .error e => ⟨[], [e], []⟩
    else ⟨[], [], []⟩
  | .listMsg items => send_it_over_list send_result session_id items
  | .tupleMsg items => send_it_over_list send_result session_id items
  | .otherMsg r => ⟨[], [], ["FAILED TO PROCESS " ++ r]⟩

/-- The `for message_part in message` loop of `send_it` (lines 189-191):
recursive `send_it` on every element, outcomes concatenated. -/
def send_it_over_list (send_result : SendOracle) (session_id : String) :
    MsgList → SendItResult
  | .nil => ⟨[], [], []⟩
  | .cons m ms =>
    (send_it send_result session_id m).append (send_it_over_list send_result session_id ms)

end

/--
The guarded region of `send_it` (the `try` body, lines 174-191) in isolation:
identical to `send_it` except that an exception raised by `send` propagates
(`Except.error`) instead of being caught.  The nested iterations still run the
full `send_it`, whose own handler catches their exceptions, exactly as in the
source.
-/
def send_it_guarded_body (send_result : SendOracle) (session_id : String) :
    Msg → Except String SendItResult
  | .agentFinish has_rv rv =>
    if has_rv then
      match send_result (socket_message_of session_id (rv_output rv)) with
      | .ok _ => .ok ⟨[socket_message_of session_id (rv_output rv)], [], []⟩
      | .error e => .error e
    else .ok ⟨[], [], []⟩
  | .listMsg items => .ok (send_it_over_list send_result session_id items)
  | .tupleMsg items => .ok (send_it_over_list send_result session_id items)
  | .otherMsg r => .ok ⟨[], [], ["FAILED TO PROCESS " ++ r]⟩

mutual

/-- The `return_values` dictionaries of every `AgentFinish` (with the
attribute present) reachable from a message through list and tuple nesting,
in processing order. -/
def collect_return_values : Msg → List (List (String × String))
  | .agentFinish true rv => [rv]
  | .agentFinish false _ => []
  | .listMsg items => collect_return_values_list items
  | .tupleMsg items => collect_return_values_list items
  | .otherMsg _ => []

/-- `collect_return_values` over the elements of a list or tuple message. -/
def collect_return_values_list : MsgList → List (List (String × String))
  | .nil => []
  | .cons m ms => collect_return_values m ++ collect_return_values_list ms

end

/-- The observable outcome of `run_crew`: log records, and the exception
propagated to the caller, if any. -/
structure RunOutcome where
  logs : List String
  propagated : Option String
deriving DecidableEq

/-- `run_crew` (build_crew.py lines 196-200), with the outcome of the external
`self.crew.kickoff()` call supplied: an exception from kickoff is caught by
`except Exception` and logged; nothing propagates. -/
def run_crew (kickoff_result : Except String Unit) : RunOutcome :=
  match kickoff_result with
  | .ok _ => ⟨[], none⟩
  | .error e => ⟨[e], none⟩

/-- The five build steps (lines 79-171) perform no socket operations: none of
their bodies references `self.socket`. -/
def build_steps_socket_ops : List SocketOp := []

/-- `run_crew` itself (lines 196-200) performs no socket operations; progress
events raised during `kickoff` flow through the step callback and are
accounted to it. -/
def run_crew_socket_ops : List SocketOp := []

/-- The socket operations performed by one `send_it` call: one `message` emit
per socket message sent. -/
def send_it_socket_ops (send_result : SendOracle) (session_id : String) (m : Msg) :
    List SocketOp :=
  ((send_it send_result session_id m).emitted).map (fun sm => SocketOp.emit "message" sm.room)

/-- The socket operations of a whole builder lifecycle: construction
(`init_socket`), the five build steps, the step-callback invocations during
the run, and `run_crew` itself, in program order. -/
def lifecycle_socket_ops (connect_result : Except SocketError Unit) (session_id : String)
    (send_result : SendOracle) (callback_messages : List Msg) : List SocketOp :=
  (init_socket connect_result session_id).socket_ops
    ++ build_steps_socket_ops
    ++ (callback_messages.map (send_it_socket_ops send_result session_id)).flatten
    ++ run_crew_socket_ops

/-- Whether the external `send` call returns normally on a given message. -/
def sendOk (send_result : SendOracle) (sm : SocketMessage) : Bool :=
  match send_result sm with
  | .ok _ => true
  | .error _ => false

/-- A send outcome that always returns normally. -/
def okSend : SendOracle := fun _ => .ok ()

/-- A send outcome that always raises. -/
def failSend : SendOracle := fun _ => .error "socket down"

/-- A concrete callback message: a list wrapping one finished agent result
and one unprocessed value. -/
def sampleMsg : Msg :=
  .listMsg (.cons (.agentFinish true [("output", "done")]) (.cons (.otherMsg "AgentAction") .nil))

end BuildCrew

namespace BuildCrew

theorem match_key_false_eq_find {α : Type} (d : EDict α) (key : Key) :
    match_key d key false = (first_superset_entry d key).map Prod.snd := by
  induction d with
  | nil => rfl
  | cons hd tl ih =>
    obtain ⟨k, v⟩ := hd
    simp only [match_key, first_superset_entry]
    rw [if_neg (by simp)]
    by_cases h : key ⊆ k
    · rw [if_pos h, List.find?_cons_of_pos _ (by simpa using h)]
      rfl
    · rw [if_neg h, List.find?_cons_of_neg _ (by simpa using h)]
      exact ih

/-- C1: with `exact = false`, `match_key` returns the value of the first entry
(in iteration order) whose key-set is a superset of the query key-set, and
returns `none` iff no entry's key-set is a superset of the query key-set. -/
theorem c1_match_key_first_superset {α : Type} (d : EDict α) (key : Key) :
    match_key d key false = (d.find? (fun kv => decide (key ⊆ kv.1))).map Prod.snd
      ∧ (match_key d key false = none ↔ ∀ kv ∈ d, ¬ key ⊆ kv.1) := by
  refine ⟨match_key_false_eq_find d key, ?_⟩
  rw [match_key_false_eq_find d key, first_superset_entry]
  constructor
  · intro h kv hkv
    rcases Option.map_eq_none'.mp h with hnone
    have := List.find?_eq_none.mp hnone kv hkv
    simpa using this
  · intro h
    rw [Option.map_eq_none']
    exact List.find?_eq_none.mpr (fun kv hkv => by simpa using h kv hkv)

theorem false_and_cond {p : Prop} : ¬(false = true ∧ p) := fun hc => by cases hc.1

/-- C2: the `exact` flag never changes the result of `match_key`: an entry
matched by key equality is also matched by the subset test, so
`match_key d key exact = match_key d key false` for every dictionary, query
and flag value. -/
theorem c2_match_key_exact_irrelevant {α : Type} (d : EDict α) (key : Key) (exact : Bool) :
    match_key d key exact = match_key d key false := by
  induction d with
  | nil => rfl
  | cons hd tl ih =>
    obtain ⟨k, v⟩ := hd
    simp only [match_key]
    conv_rhs => rw [if_neg false_and_cond]
    by_cases hx : exact = true ∧ key = k
    · rw [if_pos hx, if_pos (show key ⊆ k by rw [hx.2])]
    · rw [if_neg hx]
      by_cases hs : key ⊆ k
      · rw [if_pos hs, if_pos hs]
      · rw [if_neg hs, if_neg hs]
        exact ih

/-- C3: `search_subordinate_keys` returns exactly the entries whose key-set
strictly contains the query key-set (an entry keyed by exactly the query
key-set is never included), and this relation supplies the `tools` argument of
every agent built by `build_agents` and every task built by `build_tasks`. -/
theorem c3_search_subordinate_strict (α : Type) (d : EDict α) (key k : Key) (v : α)
    (st : BuilderState) :
    ((k, v) ∈ search_subordinate_keys d key ↔ ((k, v) ∈ d ∧ key ⊆ k ∧ key ≠ k))
      ∧ (∀ p ∈ ((build_agents st).crew_agents).drop st.crew_agents.length,
          p.2.tools = (search_subordinate_keys st.crew_tools p.1).map Prod.snd)
      ∧ (∀ p ∈ ((build_tasks st).crew_tasks).drop st.crew_tasks.length,
          p.2.tools = (search_subordinate_keys st.crew_tools p.1).map Prod.snd) := by
  refine ⟨?_, ?_, ?_⟩
  · simp [search_subordinate_keys, List.mem_filter, and_assoc]
  · intro p hp
    simp only [build_agents, List.drop_left] at hp
    rcases List.mem_map.mp hp with ⟨kv, _, hkv⟩
    rw [← hkv]
    rfl
  · intro p hp
    simp only [build_tasks, List.drop_left] at hp
    rcases List.mem_map.mp hp with ⟨kv, _, hkv⟩
    rw [← hkv]
    rfl

/-- C3 witness: on a concrete dictionary, an entry keyed by a strict superset
of the query is returned and characterised; on the concrete sample state, the
agent built for key `{1}` receives exactly the tools found by
`search_subordinate_keys` on the tool dictionary. -/
theorem c3_search_subordinate_strict_witness :
    (({1, 2} : Key), sampleTool) ∈ search_subordinate_keys [(({1, 2} : Key), sampleTool)] {1}
      ∧ (agentEntry sampleState.crew_models sampleState.crew_tools
          (({1} : Key), ⟨"agentconf"⟩)).2.tools =
        (search_subordinate_keys sampleState.crew_tools
          (agentEntry sampleState.crew_models sampleState.crew_tools
            (({1} : Key), ⟨"agentconf"⟩)).1).map Prod.snd := by
  constructor
  · exact (c3_search_subordinate_strict BuiltTool [({1, 2}, sampleTool)] {1} {1, 2} sampleTool
      sampleState).1.mpr ⟨by simp, by decide, by decide⟩
  · exact (c3_search_subordinate_strict BuiltTool [({1, 2}, sampleTool)] {1} {1, 2} sampleTool
      sampleState).2.1 _ (by simp [build_agents, sampleState])

/-- C4: `build_crew` executes exactly the five build steps, each once and in
the fixed order models → tools → agents → tasks → crew construction, and the
final step stores the `Crew` built from the accumulated agents and tasks with
the step callback installed. -/
theorem c4_build_crew_five_steps (st : BuilderState) :
    build_crew st =
        build_crew_object (build_tasks (build_agents
          (build_tools_and_their_datasources (build_models_with_credentials st))))
      ∧ build_crew_step_sequence =
          [BuildStepTag.models, BuildStepTag.tools, BuildStepTag.agents,
            BuildStepTag.tasks, BuildStepTag.crewStep]
      ∧ build_crew_step_sequence.Nodup
      ∧ (build_crew st).crew = some (crewObjectOf (build_tasks (build_agents
          (build_tools_and_their_datasources (build_models_with_credentials st))))) :=
  ⟨rfl, rfl, by decide, rfl⟩

theorem modelEntry_some {creds : EDict CredentialsM} {kv : Key × ModelM} {p : Key × BuiltModel}
    (h : modelEntry creds kv = some p) :
    p.1 = kv.1 ∧ ∃ c, match_key creds kv.1 false = some c ∧
      (c.type = Platform.chatOpenAI ∨ c.type = Platform.azureChatOpenAI ∨
        c.type = Platform.fastEmbed) := by
  unfold modelEntry at h
  split at h
  · exact Option.noConfusion h
  · rename_i c hm
    split at h
    · rename_i hc
      cases h
      exact ⟨rfl, c, hm, Or.inl hc⟩
    · rename_i hc
      cases h
      exact ⟨rfl, c, hm, Or.inr (Or.inl hc)⟩
    · rename_i hc
      cases h
      exact ⟨rfl, c, hm, Or.inr (Or.inr hc)⟩
    · exact Option.noConfusion h

theorem modelEntry_fires {creds : EDict CredentialsM} {k : Key} {mdl : ModelM}
    {c : CredentialsM} (hm : match_key creds k false = some c)
    (ht : c.type = Platform.chatOpenAI ∨ c.type = Platform.azureChatOpenAI ∨
      c.type = Platform.fastEmbed) :
    ∃ bm, modelEntry creds (k, mdl) = some (k, bm) := by
  unfold modelEntry
  simp only [hm]
  rcases ht with h | h | h <;> rw [h] <;> exact ⟨_, rfl⟩

/-- C5: starting from the empty `crew_models` dictionary of a fresh builder,
`build_models_with_credentials` produces an entry for a key iff some model is
stored under that key, a credential subset-matches the key, and the matched
credential's platform type is `ChatOpenAI`, `AzureChatOpenAI` or `FastEmbed`;
models with no matching credential or any other credential type are silently
skipped. -/
theorem c5_build_models_iff (st : BuilderState) (key : Key) (h0 : st.crew_models = []) :
    (∃ bm, (key, bm) ∈ (build_models_with_credentials st).crew_models) ↔
      ∃ mdl, (key, mdl) ∈ st.models_models ∧
        ∃ c, match_key st.credentials_models key false = some c ∧
          (c.type = Platform.chatOpenAI ∨ c.type = Platform.azureChatOpenAI ∨
            c.type = Platform.fastEmbed) := by
  simp only [build_models_with_credentials, h0, List.nil_append]
  constructor
  · rintro ⟨bm, hbm⟩
    rcases List.mem_filterMap.mp hbm with ⟨kv, hkv, hfire⟩
    obtain ⟨h1, c, hm, ht⟩ := modelEntry_some hfire
    have hk : key = kv.1 := h1
    refine ⟨kv.2, ?_, c, ?_, ht⟩
    · rw [hk, Prod.mk.eta]
      exact hkv
    · rw [hk]
      exact hm
  · rintro ⟨mdl, hmem, c, hm, ht⟩
    obtain ⟨bm, hbm⟩ := @modelEntry_fires st.credentials_models key mdl c hm ht
    exact ⟨bm, List.mem_filterMap.mpr ⟨(key, mdl), hmem, hbm⟩⟩

/-- C5 witness: in the concrete sample state (fresh `crew_models`, one model
keyed `{1}`, a `ChatOpenAI` credential keyed `{1, 2}`), an entry for key `{1}`
is produced. -/
theorem c5_build_models_iff_witness :
    ∃ bm, (({1} : Key), bm) ∈ (build_models_with_credentials sampleState).crew_models :=
  (c5_build_models_iff sampleState {1} rfl).mpr
    ⟨sampleModel, by simp [sampleState], sampleCredential, by decide, Or.inl rfl⟩

/-- C6: every exception raised inside the guarded region of `send_it` is
caught and turned into a log record; `send_it` always returns normally, equal
to the guarded body's value when no exception occurs, and to a result whose
log holds exactly the exception when one does. -/
theorem c6_send_it_catches (send_result : SendOracle) (session_id : String) (msg : Msg) :
    send_it send_result session_id msg =
        (match send_it_guarded_body send_result session_id msg with
          | .ok r => r
          | .error e => ⟨[], [e], []⟩)
      ∧ (∀ e, send_it_guarded_body send_result session_id msg = .error e →
          (send_it send_result session_id msg).logged = [e]) := by
  cases msg with
  | agentFinish has_rv rv =>
    cases has_rv with
    | false =>
      exact ⟨rfl, fun e he => by simp [send_it_guarded_body] at he⟩
    | true =>
      cases hsr : send_result (socket_message_of session_id (rv_output rv)) with
      | ok u =>
        constructor
        · simp [send_it, send_it_guarded_body, hsr]
        · intro e he
          simp [send_it_guarded_body, hsr] at he
      | error e0 =>
        constructor
        · simp [send_it, send_it_guarded_body, hsr]
        · intro e he
          simp [send_it_guarded_body, hsr] at he
          simp [send_it, hsr, he]
  | listMsg items =>
    exact ⟨rfl, fun e he => by simp [send_it_guarded_body] at he⟩
  | tupleMsg items =>
    exact ⟨rfl, fun e he => by simp [send_it_guarded_body] at he⟩
  | otherMsg r =>
    exact ⟨rfl, fun e he => by simp [send_it_guarded_body] at he⟩

/-- C6 witness: with a `send` that raises, the exception is logged and the
call returns normally. -/
theorem c6_send_it_catches_witness :
    (send_it failSend "sess" (Msg.agentFinish true [("output", "done")])).logged =
      ["socket down"] :=
  (c6_send_it_catches failSend "sess" (Msg.agentFinish true [("output", "done")])).2
    "socket down" (by simp [send_it_guarded_body, failSend])

/-- C7: when `socket.connect` raises a connection error, `init_socket` logs it
and re-raises the same exception to the caller. -/
theorem c7_init_socket_reraises (ce : String) (sid : String) :
    (init_socket (Except.error (SocketError.connError ce)) sid).logs =
        ["Connection error occurred: " ++ ce]
      ∧ (init_socket (Except.error (SocketError.connError ce)) sid).result =
        Except.error (SocketError.connError ce) :=
  ⟨rfl, rfl⟩

mutual

theorem send_it_emitted_eq (o : SendOracle) (sid : String) :
    ∀ msg : Msg, (send_it o sid msg).emitted =
      ((collect_return_values msg).map (fun rv => socket_message_of sid (rv_output rv))).filter
        (sendOk o)
  | .agentFinish true rv => by
    simp only [send_it, collect_return_values, List.map_cons, List.map_nil]
    cases h : o (socket_message_of sid (rv_output rv)) with
    | ok u => simp [sendOk, h]
    | error e => simp [sendOk, h]
  | .agentFinish false rv => by simp [send_it, collect_return_values]
  | .listMsg items => by
    simp only [send_it, collect_return_values]
    exact send_it_over_list_emitted_eq o sid items
  | .tupleMsg items => by
    simp only [send_it, collect_return_values]
    exact send_it_over_list_emitted_eq o sid items
  | .otherMsg r => by simp [send_it, collect_return_values]

theorem send_it_over_list_emitted_eq (o : SendOracle) (sid : String) :
    ∀ ms : MsgList, (send_it_over_list o sid ms).emitted =
      ((collect_return_values_list ms).map
          (fun rv => socket_message_of sid (rv_output rv))).filter (sendOk o)
  | .nil => by simp [send_it_over_list, collect_return_values_list]
  | .cons m ms => by
    simp only [send_it_over_list, collect_return_values_list, SendItResult.append,
      List.map_append, List.filter_append]
    rw [send_it_emitted_eq o sid m, send_it_over_list_emitted_eq o sid ms]

end

/-- C9: `send_it` emits a socket message only for (possibly list- or
tuple-nested) `AgentFinish` values carrying `return_values`, the emitted text
being the `output` entry of those `return_values`; when every `send` returns
normally the emissions are exactly those, in processing order; a message
containing no such `AgentFinish` emits nothing, and a message of any other
shape is only printed as unprocessed. -/
theorem c9_send_it_emission_shape (o : SendOracle) (sid : String) (msg : Msg) :
    (∀ sm ∈ (send_it o sid msg).emitted,
        ∃ rv ∈ collect_return_values msg, sm = socket_message_of sid (rv_output rv))
      ∧ ((∀ m, o m = Except.ok ()) →
          (send_it o sid msg).emitted =
            (collect_return_values msg).map (fun rv => socket_message_of sid (rv_output rv)))
      ∧ (collect_return_values msg = [] → (send_it o sid msg).emitted = [])
      ∧ (∀ r, msg = Msg.otherMsg r →
          (send_it o sid msg).emitted = [] ∧
            (send_it o sid msg).printed = ["FAILED TO PROCESS " ++ r]) := by
  refine ⟨?_, ?_, ?_, ?_⟩
  · intro sm hsm
    rw [send_it_emitted_eq] at hsm
    rcases List.mem_map.mp (List.mem_of_mem_filter hsm) with ⟨rv, hrv, he⟩
    exact ⟨rv, hrv, he.symm⟩
  · intro hok
    rw [send_it_emitted_eq]
    exact List.filter_eq_self.mpr (fun sm _ => by simp [sendOk, hok sm])
  · intro h0
    rw [send_it_emitted_eq, h0]
    rfl
  · rintro r rfl
    exact ⟨by rw [send_it_emitted_eq]; rfl, rfl⟩

/-- C9 witness: on a concrete list message holding one finished agent result
and one unprocessed value, with `send` succeeding, exactly the finish's
`output` text is emitted. -/
theorem c9_send_it_emission_shape_witness :
    (send_it okSend "sess" sampleMsg).emitted =
      (collect_return_values sampleMsg).map
        (fun rv => socket_message_of "sess" (rv_output rv)) :=
  (c9_send_it_emission_shape okSend "sess" sampleMsg).2.1 (fun _ => rfl)

/-- C8: over a whole builder lifecycle — construction, the five build steps,
every step-callback invocation, and the run call — the socket is connected
exactly once, during construction (`init_socket`); the build steps, callback
dispatches and run perform no connect, only emits. -/
theorem c8_socket_connect_once (connect_result : Except SocketError Unit) (sid : String)
    (send_result : SendOracle) (callback_messages : List Msg) :
    (lifecycle_socket_ops connect_result sid send_result callback_messages).count
        SocketOp.connect = 1
      ∧ (init_socket connect_result sid).socket_ops.count SocketOp.connect = 1
      ∧ (build_steps_socket_ops
          ++ (callback_messages.map (send_it_socket_ops send_result sid)).flatten
          ++ run_crew_socket_ops).count SocketOp.connect = 0 := by
  have h2 : (init_socket connect_result sid).socket_ops.count SocketOp.connect = 1 := by
    rcases connect_result with (msg | msg) | u <;> simp [init_socket]
  have hc : ((callback_messages.map (send_it_socket_ops send_result sid)).flatten).count
      SocketOp.connect = 0 := by
    rw [List.count_eq_zero]
    simp [List.mem_flatten, send_it_socket_ops]
  refine ⟨?_, h2, ?_⟩
  · simp [lifecycle_socket_ops, List.count_append, h2, hc,
      build_steps_socket_ops, run_crew_socket_ops]
  · simp [List.count_append, hc, build_steps_socket_ops, run_crew_socket_ops]

/-- C10: `run_crew` never propagates an exception: whatever `kickoff` does,
nothing escapes to the caller, and an exception raised by `kickoff` is caught
and logged. -/
theorem c10_run_crew_swallows (kickoff_result : Except String Unit) :
    (run_crew kickoff_result).propagated = none
      ∧ ∀ e, kickoff_result = Except.error e → (run_crew kickoff_result).logs = [e] := by
  constructor
  · cases kickoff_result <;> rfl
  · rintro e rfl
    rfl

/-- C10 witness: a concrete failing kickoff is logged and nothing
propagates. -/
theorem c10_run_crew_swallows_witness :
    (run_crew (Except.error "kickoff failed")).propagated = none
      ∧ (run_crew (Except.error "kickoff failed")).logs = ["kickoff failed"] :=
  ⟨(c10_run_crew_swallows (Except.error "kickoff failed")).1,
    (c10_run_crew_swallows (Except.error "kickoff failed")).2 "kickoff failed" rfl⟩

end BuildCrew
